import Mathlib

/-!
Verification of the core state machines of the archery-timer program
(src/main.rs): the pausable `Timer` stopwatch, the `ApplicationState`
dual-timer mutual-exclusion policy with its audio side effects, the
`ButtonTracker` debounce/reset state machine, and `format_timestamp`.

Time is modelled as a `Nat` count of milliseconds on a monotonic clock;
operations that call `Instant::now()` in the source take the current
instant as an explicit argument.  Side effects on the audio controller
are additionally recorded as an explicit trace (`List AudioEvent`), and
the commands the button tracker sends to the application state are
recorded as a `List TimerCommand`, mirroring the calls the Rust code
makes through the shared `Arc<Mutex<ApplicationState>>`.
-/

/-- Embeds `struct Timer` (src/main.rs lines 19-22): `start_time: Option<Instant>`
and `offset: Duration`, both in milliseconds. -/
structure Timer where
  start_time : Option Nat
  offset : Nat
deriving DecidableEq, Repr

namespace Timer

/-- `Timer::new` (lines 24-29). -/
def new : Timer := { start_time := none, offset := 0 }

/-- `Timer::is_running` (lines 30-32). -/
def is_running (t : Timer) : Bool := t.start_time.isSome

/-- `Timer::start` (lines 33-38): no-op if already running, else records `now`. -/
def start (t : Timer) (now : Nat) : Timer :=
  if t.start_time.isSome then t
  else { t with start_time := some now }

/-- `Timer::stop` (lines 39-46): folds elapsed time into `offset`, clears
`start_time`; no-op when idle.  `start_time.elapsed()` is `now - start`. -/
def stop (t : Timer) (now : Nat) : Timer :=
  match t.start_time with
  | some st => { start_time := none, offset := t.offset + (now - st) }
  | none => t

/-- `Timer::clear` (lines 47-50): unconditionally zeroes both fields. -/
def clear (_t : Timer) : Timer := { start_time := none, offset := 0 }

/-- `Timer::get_duration` (lines 51-56). -/
def get_duration (t : Timer) (now : Nat) : Nat :=
  match t.start_time with
  | some st => t.offset + (now - st)
  | none => t.offset

end Timer

/-- Embeds `struct AudioController` (lines 59-62).  The `rodio` output stream is
environment, not state; the observable state is which file the running player
is looping, `running_player : Option<Sink>` modelled by the file it plays. -/
structure AudioController where
  running_player : Option String
deriving DecidableEq, Repr

namespace AudioController

/-- `AudioController::play_file` (lines 70-79): drops any existing player and
starts a new looping player for `file_path`. -/
def play_file (_a : AudioController) (file_path : String) : AudioController :=
  { running_player := some file_path }

/-- `AudioController::stop` (lines 80-83): drops the existing player. -/
def stop (_a : AudioController) : AudioController :=
  { running_player := none }

end AudioController

/-- One observable call made on the audio controller, recorded as a trace
element by the `ApplicationState` operations. -/
inductive AudioEvent where
  | playFile (path : String)
  | stopAudio
deriving DecidableEq, Repr

/-- Embeds `struct TimerConfig` (lines 86-92). -/
structure TimerConfig where
  color : String
  music_file : Option String
  flipped : Bool
deriving DecidableEq, Repr

/-- Embeds `struct Config` (lines 94-99). -/
structure Config where
  button_toggle : Bool
  left_timer : TimerConfig
  right_timer : TimerConfig
deriving DecidableEq, Repr

/-- Embeds `struct ApplicationState` (lines 101-106). -/
structure ApplicationState where
  config : Config
  left_timer : Timer
  right_timer : Timer
  audio_controller : AudioController
deriving DecidableEq, Repr

namespace ApplicationState

/-- `ApplicationState::new` (lines 108-115). -/
def new (config : Config) : ApplicationState :=
  { config
    left_timer := Timer.new
    right_timer := Timer.new
    audio_controller := { running_player := none } }

/-- `ApplicationState::clear_timers` (lines 117-121); the second component is
the trace of audio-controller calls made. -/
def clear_timers (s : ApplicationState) : ApplicationState × List AudioEvent :=
  ({ s with
      left_timer := s.left_timer.clear
      right_timer := s.right_timer.clear
      audio_controller := s.audio_controller.stop },
   [AudioEvent.stopAudio])

/-- `ApplicationState::start_left_timer` (lines 122-132), with the trace of
audio-controller calls made. -/
def start_left_timer (s : ApplicationState) (now : Nat) :
    ApplicationState × List AudioEvent :=
  if s.left_timer.is_running && s.config.button_toggle then
    ({ s with left_timer := s.left_timer.stop now }, [])
  else
    let s1 := { s with
      right_timer := s.right_timer.stop now
      left_timer := s.left_timer.start now }
    match s.config.left_timer.music_file with
    | some music_path =>
        ({ s1 with audio_controller := s1.audio_controller.play_file music_path },
         [AudioEvent.playFile music_path])
    | none => (s1, [])

/-- `ApplicationState::start_right_timer` (lines 133-143), with the trace of
audio-controller calls made. -/
def start_right_timer (s : ApplicationState) (now : Nat) :
    ApplicationState × List AudioEvent :=
  if s.right_timer.is_running && s.config.button_toggle then
    ({ s with right_timer := s.right_timer.stop now }, [])
  else
    let s1 := { s with
      left_timer := s.left_timer.stop now
      right_timer := s.right_timer.start now }
    match s.config.right_timer.music_file with
    | some music_path =>
        ({ s1 with audio_controller := s1.audio_controller.play_file music_path },
         [AudioEvent.playFile music_path])
    | none => (s1, [])

end ApplicationState

/-- One call on the shared `ApplicationState` (the three commands reachable
from the button tracker and the key-press handler). -/
inductive AppOp where
  | startLeft (now : Nat)
  | startRight (now : Nat)
  | clearTimers
deriving DecidableEq, Repr

namespace ApplicationState

/-- Dispatch one operation on the application state. -/
def applyOp (s : ApplicationState) : AppOp → ApplicationState × List AudioEvent
  | AppOp.startLeft now => s.start_left_timer now
  | AppOp.startRight now => s.start_right_timer now
  | AppOp.clearTimers => s.clear_timers

/-- Run a sequence of operations on the application state. -/
def runOps (s : ApplicationState) : List AppOp → ApplicationState
  | [] => s
  | op :: ops => ((s.applyOp op).1).runOps ops

/-- The mutual-exclusion invariant: the two lanes are never both running. -/
def atMostOneRunning (s : ApplicationState) : Bool :=
  !(s.left_timer.is_running && s.right_timer.is_running)

end ApplicationState

/-- Models Rust's `format!("{n:02}")`: decimal digits, zero-padded on the left
to a minimum width of 2. -/
def pad2 (n : Nat) : String :=
  if n < 10 then "0" ++ toString n else toString n

/-- `format_timestamp` (lines 269-275): milliseconds rendered as `MM:SS`,
seconds `mod` 60, minutes unbounded. -/
def format_timestamp (timestamp_ms : Nat) : String :=
  let timestamp_s := timestamp_ms / 1000
  let s := timestamp_s % 60
  let timestamp_m := timestamp_s / 60
  let m := timestamp_m
  pad2 m ++ ":" ++ pad2 s

/-- Embeds `enum ButtonSide` (lines 318-322). -/
inductive ButtonSide where
  | Left
  | Right
deriving DecidableEq, Repr

/-- One command sent by the button tracker to the shared application state
(the calls made through `self.app.lock().unwrap()`). -/
inductive TimerCommand where
  | startLane (side : ButtonSide)
  | resetAll
deriving DecidableEq, Repr

/-- Embeds `struct ButtonTracker` (lines 343-354).  The two `Option<Pin<Box<Sleep>>>`
timeout slots are modelled by their absolute deadlines in milliseconds; the
`app` handle is replaced by the explicit command traces the step functions
return. -/
structure ButtonTracker where
  left_state : Bool
  right_state : Bool
  tick_timeout : Option Nat
  reset_timeout : Option Nat
  reset_debounce : Bool
deriving DecidableEq, Repr

namespace ButtonTracker

/-- `ButtonTracker::new` (lines 356-365). -/
def new : ButtonTracker :=
  { left_state := false
    right_state := false
    tick_timeout := none
    reset_timeout := none
    reset_debounce := false }

/-- `ButtonTracker::update` (lines 407-419): a duplicate level is ignored; a
genuine change is stored and (re)arms the tick timeout 25 ms from `now`. -/
def update (bt : ButtonTracker) (side : ButtonSide) (state : Bool) (now : Nat) :
    ButtonTracker :=
  let existing_state := match side with
    | ButtonSide.Left => bt.left_state
    | ButtonSide.Right => bt.right_state
  if existing_state == state then bt
  else
    let bt1 := match side with
      | ButtonSide.Left => { bt with left_state := state }
      | ButtonSide.Right => { bt with right_state := state }
    { bt1 with tick_timeout := some (now + 25) }

/-- The tick timeout elapsing: `get_timeout` (lines 366-377) clears
`tick_timeout` and returns `TickTimeout`, then `timeout_update` (lines 378-400)
dispatches on `(left_state, right_state)` guarded by `reset_debounce`,
matching the Rust match arms in order. -/
def fire_tick (bt : ButtonTracker) (now : Nat) :
    ButtonTracker × List TimerCommand :=
  let bt1 := { bt with tick_timeout := none }
  match bt1.left_state, bt1.right_state with
  | true, true =>
      if !bt1.reset_debounce then
        ({ bt1 with reset_timeout := some (now + 3000) }, [])
      else (bt1, [])
  | true, false =>
      if !bt1.reset_debounce then
        ({ bt1 with reset_timeout := none }, [TimerCommand.startLane ButtonSide.Left])
      else (bt1, [])
  | false, true =>
      if !bt1.reset_debounce then
        ({ bt1 with reset_timeout := none }, [TimerCommand.startLane ButtonSide.Right])
      else (bt1, [])
  | false, false =>
      ({ bt1 with reset_debounce := false }, [])

/-- The reset timeout elapsing: `get_timeout` clears `reset_timeout` and
returns `ResetTimeout`, then `timeout_update` (lines 401-404) sets the
`reset_debounce` latch and commands `clear_timers`. -/
def fire_reset (bt : ButtonTracker) : ButtonTracker × List TimerCommand :=
  let bt1 := { bt with reset_timeout := none }
  ({ bt1 with reset_debounce := true }, [TimerCommand.resetAll])

end ButtonTracker

/-- One event processed by the `track_gpio` select loop (lines 448-466): a raw
GPIO level delivered to `update`, or one of the two timeouts elapsing.  Each
event carries the monotonic instant at which it is processed. -/
inductive BtEvent where
  | rawLevel (side : ButtonSide) (level : Bool) (now : Nat)
  | tickFire (now : Nat)
  | resetFire (now : Nat)
deriving DecidableEq, Repr

namespace ButtonTracker

/-- Process one loop event, returning the new tracker state and the commands
sent to the application state. -/
def step (bt : ButtonTracker) : BtEvent → ButtonTracker × List TimerCommand
  | BtEvent.rawLevel side level now => (bt.update side level now, [])
  | BtEvent.tickFire now => bt.fire_tick now
  | BtEvent.resetFire _ => bt.fire_reset

/-- Process a sequence of loop events, accumulating the commands issued. -/
def run (bt : ButtonTracker) : List BtEvent → ButtonTracker × List TimerCommand
  | [] => (bt, [])
  | e :: es =>
      let r1 := bt.step e
      let r2 := r1.1.run es
      (r2.1, r1.2 ++ r2.2)

/-- A timeout can only fire if its slot is armed and its deadline has elapsed
(`MaybeFuture(None)` is forever pending, and a `Sleep` completes only at or
after its deadline); raw levels may arrive at any instant. -/
def validEvent (bt : ButtonTracker) : BtEvent → Bool
  | BtEvent.rawLevel _ _ _ => true
  | BtEvent.tickFire now =>
      match bt.tick_timeout with
      | some d => d ≤ now
      | none => false
  | BtEvent.resetFire now =>
      match bt.reset_timeout with
      | some d => d ≤ now
      | none => false

/-- Validity of a whole event sequence from a given tracker state. -/
def validRun (bt : ButtonTracker) : List BtEvent → Bool
  | [] => true
  | e :: es => bt.validEvent e && (bt.step e).1.validRun es

end ButtonTracker

/-! ## Helper lemmas about `Timer` -/

theorem Timer.stop_start_time (t : Timer) (now : Nat) :
    (t.stop now).start_time = none := by
  cases h : t.start_time <;> simp [Timer.stop, h]

theorem Timer.stop_not_running (t : Timer) (now : Nat) :
    (t.stop now).is_running = false := by
  simp [Timer.is_running, Timer.stop_start_time]

theorem Timer.start_of_running (t : Timer) (now : Nat)
    (h : t.is_running = true) : t.start now = t := by
  simp only [Timer.is_running] at h
  simp [Timer.start, h]

/-- C8: for every stopwatch state, `get_duration` is monotonically
non-decreasing in the current instant while running and constant (equal to the
accumulated offset) while idle, and `clear` unconditionally zeroes the
accumulated duration and clears the running-since instant, so the duration
reads zero afterwards regardless of the prior running state. -/
theorem timer_duration_monotone_and_clear (t : Timer) (n1 n2 : Nat)
    (h : n1 ≤ n2) :
    (t.is_running = true → t.get_duration n1 ≤ t.get_duration n2) ∧
    (t.is_running = false → ∀ n, t.get_duration n = t.offset) ∧
    (∀ n, (t.clear).get_duration n = 0) ∧
    (t.clear).offset = 0 ∧ (t.clear).start_time = none := by
  refine ⟨?_, ?_, ?_, rfl, rfl⟩
  · intro hrun
    cases hst : t.start_time with
    | none => simp [Timer.is_running, hst] at hrun
    | some st =>
        simp only [Timer.get_duration, hst]
        exact Nat.add_le_add_left (Nat.sub_le_sub_right h st) t.offset
  · intro hidle
    cases hst : t.start_time with
    | none => intro n; simp [Timer.get_duration, hst]
    | some st => simp [Timer.is_running, hst] at hidle
  · intro n; simp [Timer.clear, Timer.get_duration]

/-- Witness for C8 at the concrete running stopwatch ⟨some 0, 5⟩ and instants
1 ≤ 2. -/
theorem timer_duration_monotone_and_clear_witness :
    (1 ≤ 2) ∧
    ((Timer.mk (some 0) 5).get_duration 1 ≤ (Timer.mk (some 0) 5).get_duration 2) :=
  ⟨by decide,
   (timer_duration_monotone_and_clear (Timer.mk (some 0) 5) 1 2 (by decide)).1 rfl⟩

/-- C9: `format_timestamp` renders milliseconds as `MM:SS`: the sample values
125000 ms ↦ "02:05" and 59999 ms ↦ "00:59" hold, the seconds field is always
zero-padded to exactly 2 digits, and the minutes field is `ms / 60000`
unbounded (no hour rollover: 8340000 ms renders as "139:00"). -/
theorem format_timestamp_spec (s : Nat) (hs : s < 60) :
    format_timestamp 125000 = "02:05" ∧
    format_timestamp 59999 = "00:59" ∧
    format_timestamp 8340000 = "139:00" ∧
    (pad2 s).length = 2 ∧
    (∀ ms, format_timestamp ms = pad2 (ms / 60000) ++ ":" ++ pad2 (ms / 1000 % 60)) := by
  refine ⟨by decide, by decide, by decide, ?_, ?_⟩
  · revert hs
    revert s
    decide
  · intro ms
    have hdd : ms / 1000 / 60 = ms / 60000 := by
      rw [Nat.div_div_eq_div_mul]
    simp [format_timestamp, hdd]

/-- Witness for C9 at the concrete seconds value 5. -/
theorem format_timestamp_spec_witness :
    (5 < 60) ∧ (pad2 5).length = 2 :=
  ⟨by decide, (format_timestamp_spec 5 (by decide)).2.2.2.1⟩

/-! ## Mutual exclusion of the two lanes -/

theorem ApplicationState.applyOp_atMostOne (s : ApplicationState) (op : AppOp) :
    ((s.applyOp op).1).atMostOneRunning = true := by
  cases op with
  | startLeft now =>
      simp only [applyOp, start_left_timer]
      split
      · simp [atMostOneRunning, Timer.stop_not_running]
      · split <;> simp [atMostOneRunning, Timer.stop_not_running]
  | startRight now =>
      simp only [applyOp, start_right_timer]
      split
      · simp [atMostOneRunning, Timer.stop_not_running]
      · split <;> simp [atMostOneRunning, Timer.stop_not_running]
  | clearTimers =>
      simp [applyOp, clear_timers, atMostOneRunning, Timer.clear, Timer.is_running]

theorem ApplicationState.runOps_atMostOne (ops : List AppOp) (s : ApplicationState)
    (h : s.atMostOneRunning = true) : (s.runOps ops).atMostOneRunning = true := by
  induction ops generalizing s with
  | nil => exact h
  | cons op ops ih => exact ih _ (s.applyOp_atMostOne op)

/-- C1 counterexample: the claim quantifies over any prior state, but from an
(unreachable) state in which both lanes are running and `button_toggle` is
set, `start_left_timer` takes the toggle-off branch, which stops only the left
lane, so the other (right) lane is still running when it returns — the claim
says it must not be. -/
theorem startLane_other_lane_counterexample :
    ((ApplicationState.mk
        (Config.mk true (TimerConfig.mk "red" none false)
          (TimerConfig.mk "blue" none false))
        (Timer.mk (some 0) 0) (Timer.mk (some 0) 0)
        (AudioController.mk none)).start_left_timer 5).1.right_timer.is_running
      = true := by decide

/-- C1 amended: every state reached from the initial state (both timers idle)
by any sequence of `start_left_timer` / `start_right_timer` / `clear_timers`
calls has at most one lane running; and after `startLane(X)` on any prior
state that itself has at most one lane running (in particular any reachable
state), the other lane is not running, for any `toggle_enabled` setting. -/
theorem appState_mutual_exclusion (config : Config) (ops : List AppOp)
    (s : ApplicationState) (now : Nat) (h : s.atMostOneRunning = true) :
    ((ApplicationState.new config).runOps ops).atMostOneRunning = true ∧
    (s.start_left_timer now).1.right_timer.is_running = false ∧
    (s.start_right_timer now).1.left_timer.is_running = false := by
  refine ⟨ApplicationState.runOps_atMostOne ops _ (by
    simp [ApplicationState.new, ApplicationState.atMostOneRunning, Timer.new,
      Timer.is_running]), ?_, ?_⟩
  · simp only [ApplicationState.start_left_timer]
    split
    · rename_i hguard
      have hl : s.left_timer.is_running = true := by
        exact_mod_cast (Bool.and_eq_true _ _).mp hguard |>.1
      simp only [ApplicationState.atMostOneRunning, hl, Bool.true_and,
        Bool.not_eq_true'] at h
      simpa using h
    · split <;> simp [Timer.stop_not_running]
  · simp only [ApplicationState.start_right_timer]
    split
    · rename_i hguard
      have hr : s.right_timer.is_running = true := by
        exact_mod_cast (Bool.and_eq_true _ _).mp hguard |>.1
      simp only [ApplicationState.atMostOneRunning, hr, Bool.and_true,
        Bool.not_eq_true'] at h
      simpa using h
    · split <;> simp [Timer.stop_not_running]

/-- Witness for C1 amended: a concrete run and a concrete prior state with at
most one lane running. -/
theorem appState_mutual_exclusion_witness :
    ((ApplicationState.mk
        (Config.mk true (TimerConfig.mk "red" none false)
          (TimerConfig.mk "blue" none false))
        (Timer.mk (some 0) 0) (Timer.mk none 0)
        (AudioController.mk none)).atMostOneRunning = true) ∧
    (((ApplicationState.new
        (Config.mk true (TimerConfig.mk "red" none false)
          (TimerConfig.mk "blue" none false))).runOps
        [AppOp.startLeft 0, AppOp.startRight 7, AppOp.clearTimers]).atMostOneRunning
      = true) :=
  ⟨by decide,
   (appState_mutual_exclusion
      (Config.mk true (TimerConfig.mk "red" none false)
        (TimerConfig.mk "blue" none false))
      [AppOp.startLeft 0, AppOp.startRight 7, AppOp.clearTimers]
      (ApplicationState.mk
        (Config.mk true (TimerConfig.mk "red" none false)
          (TimerConfig.mk "blue" none false))
        (Timer.mk (some 0) 0) (Timer.mk none 0)
        (AudioController.mk none)) 9 (by decide)).1⟩

/-- C6 counterexample: with `button_toggle = false`, the left lane already
running, and a music file configured for the left lane, `start_left_timer`
falls through to the start path and calls `play_file` again — the audio cue
IS re-triggered (the running player is dropped and a fresh looping player is
started), contradicting the claim that no audio re-trigger occurs. -/
theorem startLeft_retrigger_audio_counterexample :
    ((ApplicationState.mk
        (Config.mk false (TimerConfig.mk "red" (some "cue.mp3") false)
          (TimerConfig.mk "blue" none false))
        (Timer.mk (some 10) 0) (Timer.mk none 0)
        (AudioController.mk (some "cue.mp3"))).start_left_timer 20).2
      = [AudioEvent.playFile "cue.mp3"] := by decide

/-- C6 amended: with `toggle_enabled = false`, calling `startLane(Left)` while
the left lane is already running leaves the left stopwatch entirely unchanged
(still running, start instant and accumulated offset untouched, so elapsed
time continues uninterrupted with no restart from zero); however the audio cue
for the lane is re-triggered exactly when a music file is configured for it
(and no audio call is made when none is configured). -/
theorem startLeft_norestart_when_toggle_disabled (s : ApplicationState)
    (now : Nat) (htog : s.config.button_toggle = false)
    (hrun : s.left_timer.is_running = true) :
    (s.start_left_timer now).1.left_timer = s.left_timer ∧
    (s.start_left_timer now).2 =
      (match s.config.left_timer.music_file with
       | some p => [AudioEvent.playFile p]
       | none => []) := by
  simp only [ApplicationState.start_left_timer, htog, Bool.and_false]
  cases hm : s.config.left_timer.music_file <;>
    simp [hm, Timer.start_of_running _ _ hrun]

/-- Witness for C6 amended at a concrete toggle-disabled state with the left
lane running since instant 10 and a configured cue. -/
theorem startLeft_norestart_when_toggle_disabled_witness :
    (((ApplicationState.mk
        (Config.mk false (TimerConfig.mk "red" (some "cue.mp3") false)
          (TimerConfig.mk "blue" none false))
        (Timer.mk (some 10) 3) (Timer.mk none 0)
        (AudioController.mk none)).start_left_timer 20).1.left_timer
      = Timer.mk (some 10) 3) :=
  (startLeft_norestart_when_toggle_disabled
    (ApplicationState.mk
      (Config.mk false (TimerConfig.mk "red" (some "cue.mp3") false)
        (TimerConfig.mk "blue" none false))
      (Timer.mk (some 10) 3) (Timer.mk none 0)
      (AudioController.mk none)) 20 rfl rfl).1

/-- C7: with `toggle_enabled = true`, calling `startLane(X)` while lane X is
already running takes the toggle-off branch: lane X is stopped, the function
returns without touching the other lane's stopwatch, and no audio-controller
call is made (the audio state is untouched). -/
theorem startLane_toggle_off (s : ApplicationState) (now : Nat)
    (htog : s.config.button_toggle = true) :
    (s.left_timer.is_running = true →
      (s.start_left_timer now).1.left_timer.is_running = false ∧
      (s.start_left_timer now).1.right_timer = s.right_timer ∧
      (s.start_left_timer now).1.audio_controller = s.audio_controller ∧
      (s.start_left_timer now).2 = []) ∧
    (s.right_timer.is_running = true →
      (s.start_right_timer now).1.right_timer.is_running = false ∧
      (s.start_right_timer now).1.left_timer = s.left_timer ∧
      (s.start_right_timer now).1.audio_controller = s.audio_controller ∧
      (s.start_right_timer now).2 = []) := by
  constructor
  · intro hrun
    simp [ApplicationState.start_left_timer, htog, hrun, Timer.stop_not_running]
  · intro hrun
    simp [ApplicationState.start_right_timer, htog, hrun, Timer.stop_not_running]

/-- Witness for C7 at a concrete toggle-enabled state with the left lane
running. -/
theorem startLane_toggle_off_witness :
    (((ApplicationState.mk
        (Config.mk true (TimerConfig.mk "red" (some "cue.mp3") false)
          (TimerConfig.mk "blue" none false))
        (Timer.mk (some 10) 3) (Timer.mk none 4)
        (AudioController.mk (some "cue.mp3"))).start_left_timer 20).1.left_timer.is_running
      = false) ∧
    (((ApplicationState.mk
        (Config.mk true (TimerConfig.mk "red" (some "cue.mp3") false)
          (TimerConfig.mk "blue" none false))
        (Timer.mk (some 10) 3) (Timer.mk none 4)
        (AudioController.mk (some "cue.mp3"))).start_left_timer 20).2 = []) := by
  have h := (startLane_toggle_off
    (ApplicationState.mk
      (Config.mk true (TimerConfig.mk "red" (some "cue.mp3") false)
        (TimerConfig.mk "blue" none false))
      (Timer.mk (some 10) 3) (Timer.mk none 4)
      (AudioController.mk (some "cue.mp3"))) 20 rfl).1 rfl
  exact ⟨h.1, h.2.2.2⟩

/-- C10: `startLane(X)` makes an audio-controller call if and only if it
neither takes the toggle-off branch (lane X running with toggling enabled) nor
finds lane X without a configured `music_file`; and whenever it makes no audio
call, the audio controller is left untouched, so a cue started earlier
(including the other lane's cue) keeps looping unchanged even though the
timers have changed. -/
theorem startLane_audio_frame (s : ApplicationState) (now : Nat) :
    ((s.start_left_timer now).2 ≠ [] ↔
      (¬(s.left_timer.is_running = true ∧ s.config.button_toggle = true) ∧
       s.config.left_timer.music_file ≠ none)) ∧
    ((s.start_left_timer now).2 = [] →
      (s.start_left_timer now).1.audio_controller = s.audio_controller) ∧
    ((s.start_right_timer now).2 ≠ [] ↔
      (¬(s.right_timer.is_running = true ∧ s.config.button_toggle = true) ∧
       s.config.right_timer.music_file ≠ none)) ∧
    ((s.start_right_timer now).2 = [] →
      (s.start_right_timer now).1.audio_controller = s.audio_controller) := by
  refine ⟨?_, ?_, ?_, ?_⟩ <;>
    [skip; skip; skip; skip] <;>
    first
    | (simp only [ApplicationState.start_left_timer]
       split
       · rename_i hguard
         simp_all [Bool.and_eq_true]
       · rename_i hguard
         cases hm : s.config.left_timer.music_file <;>
           simp_all [Bool.and_eq_true])
    | (simp only [ApplicationState.start_right_timer]
       split
       · rename_i hguard
         simp_all [Bool.and_eq_true]
       · rename_i hguard
         cases hm : s.config.right_timer.music_file <;>
           simp_all [Bool.and_eq_true])

/-- Witness for C10: a concrete toggle-off call makes no audio call and leaves
the previously started (other-lane) cue looping unchanged. -/
theorem startLane_audio_frame_witness :
    (((ApplicationState.mk
        (Config.mk true (TimerConfig.mk "red" (some "l.mp3") false)
          (TimerConfig.mk "blue" (some "r.mp3") false))
        (Timer.mk (some 10) 0) (Timer.mk none 0)
        (AudioController.mk (some "r.mp3"))).start_left_timer 20).1.audio_controller
      = AudioController.mk (some "r.mp3")) :=
  (startLane_audio_frame
    (ApplicationState.mk
      (Config.mk true (TimerConfig.mk "red" (some "l.mp3") false)
        (TimerConfig.mk "blue" (some "r.mp3") false))
      (Timer.mk (some 10) 0) (Timer.mk none 0)
      (AudioController.mk (some "r.mp3"))) 20).2.1 (by decide)

/-! ## Helper lemmas about `ButtonTracker` -/

theorem ButtonTracker.update_reset_timeout (bt : ButtonTracker)
    (side : ButtonSide) (state : Bool) (now : Nat) :
    (bt.update side state now).reset_timeout = bt.reset_timeout := by
  cases side <;> simp only [ButtonTracker.update] <;> split <;> rfl

theorem ButtonTracker.update_reset_debounce (bt : ButtonTracker)
    (side : ButtonSide) (state : Bool) (now : Nat) :
    (bt.update side state now).reset_debounce = bt.reset_debounce := by
  cases side <;> simp only [ButtonTracker.update] <;> split <;> rfl

theorem ButtonTracker.fire_tick_cmds_length (bt : ButtonTracker) (now : Nat) :
    ((bt.fire_tick now).2).length ≤ 1 := by
  simp only [ButtonTracker.fire_tick]
  cases bt.left_state <;> cases bt.right_state <;> dsimp <;> (try split) <;> simp

theorem ButtonTracker.run_raw_only_no_cmds (evs : List BtEvent)
    (bt : ButtonTracker)
    (h : ∀ e ∈ evs, ∃ sd l n, e = BtEvent.rawLevel sd l n) :
    (bt.run evs).2 = [] := by
  induction evs generalizing bt with
  | nil => rfl
  | cons e es ih =>
      obtain ⟨sd, l, n, rfl⟩ := h e (List.mem_cons_self e es)
      simpa [ButtonTracker.run, ButtonTracker.step] using
        ih (bt.update sd l n) (fun e2 he2 => h e2 (List.mem_cons_of_mem _ he2))

/-- C2: from the initial tracker state, pressing Left then Right within the
same debounce window arms one shared tick deadline; when that tick elapses the
reset timer is armed for 3000 ms later and no command is issued; and when the
reset deadline then elapses with no intervening level change, the whole valid
schedule issues exactly one `resetAll` and zero `startLane` commands. -/
theorem buttonTracker_reset_gesture (t0 t1 t2 t3 : Nat)
    (h01 : t0 ≤ t1) (hwin : t1 < t0 + 25) (htick : t1 + 25 ≤ t2)
    (hreset : t2 + 3000 ≤ t3) :
    (ButtonTracker.new.run [BtEvent.rawLevel ButtonSide.Left true t0,
        BtEvent.rawLevel ButtonSide.Right true t1]).1.tick_timeout
      = some (t1 + 25) ∧
    (ButtonTracker.new.run [BtEvent.rawLevel ButtonSide.Left true t0,
        BtEvent.rawLevel ButtonSide.Right true t1,
        BtEvent.tickFire t2]).1.reset_timeout = some (t2 + 3000) ∧
    (ButtonTracker.new.run [BtEvent.rawLevel ButtonSide.Left true t0,
        BtEvent.rawLevel ButtonSide.Right true t1,
        BtEvent.tickFire t2]).2 = [] ∧
    ButtonTracker.new.validRun [BtEvent.rawLevel ButtonSide.Left true t0,
        BtEvent.rawLevel ButtonSide.Right true t1,
        BtEvent.tickFire t2, BtEvent.resetFire t3] = true ∧
    (ButtonTracker.new.run [BtEvent.rawLevel ButtonSide.Left true t0,
        BtEvent.rawLevel ButtonSide.Right true t1,
        BtEvent.tickFire t2, BtEvent.resetFire t3]).2
      = [TimerCommand.resetAll] := by
  refine ⟨?_, ?_, ?_, ?_, ?_⟩ <;>
    simp [ButtonTracker.new, ButtonTracker.run, ButtonTracker.step,
      ButtonTracker.update, ButtonTracker.fire_tick, ButtonTracker.fire_reset,
      ButtonTracker.validRun, ButtonTracker.validEvent, htick, hreset]

/-- Witness for C2 at the concrete schedule t0 = 0, t1 = 10, t2 = 40,
t3 = 3100. -/
theorem buttonTracker_reset_gesture_witness :
    (0 ≤ 10 ∧ 10 < 0 + 25 ∧ 10 + 25 ≤ 40 ∧ 40 + 3000 ≤ 3100) ∧
    (ButtonTracker.new.run [BtEvent.rawLevel ButtonSide.Left true 0,
        BtEvent.rawLevel ButtonSide.Right true 10,
        BtEvent.tickFire 40, BtEvent.resetFire 3100]).2
      = [TimerCommand.resetAll] :=
  ⟨by decide,
   (buttonTracker_reset_gesture 0 10 40 3100 (by decide) (by decide)
     (by decide) (by decide)).2.2.2.2⟩

/-- C3: while the reset-debounce latch is set, no loop event — raw level, tick
firing or reset firing — issues any `startLane` command, none arms a new reset
timer, and the latch is cleared only by a tick that observes both levels
false; hence releasing the buttons one at a time after a reset never yields a
spurious lane start, and a lane start becomes possible again only after both
levels have read false. -/
theorem buttonTracker_latch_suppression (bt : ButtonTracker) (e : BtEvent)
    (h : bt.reset_debounce = true) :
    (∀ side, TimerCommand.startLane side ∉ (bt.step e).2) ∧
    (∀ d, (bt.step e).1.reset_timeout = some d → bt.reset_timeout = some d) ∧
    ((bt.step e).1.reset_debounce = false →
      ∃ now, e = BtEvent.tickFire now ∧
        bt.left_state = false ∧ bt.right_state = false) := by
  cases e with
  | rawLevel side lvl now =>
      refine ⟨by simp [ButtonTracker.step], ?_, ?_⟩
      · intro d hd
        rwa [ButtonTracker.step, ButtonTracker.update_reset_timeout] at hd
      · intro hlatch
        rw [ButtonTracker.step, ButtonTracker.update_reset_debounce] at hlatch
        rw [h] at hlatch
        exact absurd hlatch (by simp)
  | tickFire now =>
      simp only [ButtonTracker.step, ButtonTracker.fire_tick]
      cases hl : bt.left_state <;> cases hr : bt.right_state <;>
        simp [h, hl, hr]
  | resetFire now =>
      simp [ButtonTracker.step, ButtonTracker.fire_reset]

/-- Witness for C3 at a concrete latched tracker state and a tick event. -/
theorem buttonTracker_latch_suppression_witness :
    ((ButtonTracker.mk true false none none true).reset_debounce = true) ∧
    (∀ side, TimerCommand.startLane side ∉
      ((ButtonTracker.mk true false none none true).step (BtEvent.tickFire 7)).2) :=
  ⟨rfl,
   (buttonTracker_latch_suppression (ButtonTracker.mk true false none none true)
     (BtEvent.tickFire 7) rfl).1⟩

/-- A concrete valid schedule: both buttons pressed, the tick fires and arms
the reset countdown, both buttons are released, a tick fires observing
`(false, false)`, and the still-armed reset countdown then fires. -/
def resetCancelTrace : List BtEvent :=
  [BtEvent.rawLevel ButtonSide.Left true 0,
   BtEvent.rawLevel ButtonSide.Right true 0,
   BtEvent.tickFire 25,
   BtEvent.rawLevel ButtonSide.Left false 30,
   BtEvent.rawLevel ButtonSide.Right false 30,
   BtEvent.tickFire 55,
   BtEvent.resetFire 3025]

/-- C4 counterexample: in this valid schedule the tick at instant 55 resolves
with the combined level state `(false, false)` — changed away from
`(true, true)` — while the reset timer is armed for deadline 3025, yet it does
NOT cancel the countdown (the `(false, false)` arm of `timeout_update` only
clears the latch), and the armed reset then fires at 3025 issuing `resetAll`
even though both buttons were released 2970 ms earlier. -/
theorem buttonTracker_reset_cancel_counterexample :
    ButtonTracker.new.validRun resetCancelTrace = true ∧
    (ButtonTracker.new.run (resetCancelTrace.take 5)).1.left_state = false ∧
    (ButtonTracker.new.run (resetCancelTrace.take 5)).1.right_state = false ∧
    (ButtonTracker.new.run (resetCancelTrace.take 5)).1.reset_timeout
      = some 3025 ∧
    (ButtonTracker.new.run (resetCancelTrace.take 6)).1.reset_timeout
      = some 3025 ∧
    (ButtonTracker.new.run resetCancelTrace).2 = [TimerCommand.resetAll] := by
  decide

/-- C4 amended: raw level updates never touch the reset countdown (so bounce
that leaves the combined state at `(true, true)` defers only the lane-start
decision); while the latch is clear, a tick resolving to a single-lane state
(`(true, false)` or `(false, true)`) cancels the armed reset countdown, a tick
at `(true, true)` restarts the countdown from the tick instant, and a tick at
`(false, false)` leaves the countdown untouched — so an armed reset can still
fire after a tick has observed `(false, false)`. -/
theorem buttonTracker_reset_cancel_amended (bt : ButtonTracker)
    (side : ButtonSide) (lvl : Bool) (now : Nat)
    (h : bt.reset_debounce = false) :
    (bt.update side lvl now).reset_timeout = bt.reset_timeout ∧
    ((bt.left_state = true ∧ bt.right_state = false) ∨
     (bt.left_state = false ∧ bt.right_state = true) →
      (bt.fire_tick now).1.reset_timeout = none) ∧
    (bt.left_state = true ∧ bt.right_state = true →
      (bt.fire_tick now).1.reset_timeout = some (now + 3000)) ∧
    (bt.left_state = false ∧ bt.right_state = false →
      (bt.fire_tick now).1.reset_timeout = bt.reset_timeout) := by
  refine ⟨ButtonTracker.update_reset_timeout bt side lvl now, ?_, ?_, ?_⟩
  · rintro (⟨hl, hr⟩ | ⟨hl, hr⟩) <;> simp [ButtonTracker.fire_tick, hl, hr, h]
  · rintro ⟨hl, hr⟩
    simp [ButtonTracker.fire_tick, hl, hr, h]
  · rintro ⟨hl, hr⟩
    simp [ButtonTracker.fire_tick, hl, hr]

/-- Witness for C4 amended at a concrete latch-clear state holding only the
left button, with an armed reset countdown that the single-lane tick cancels. -/
theorem buttonTracker_reset_cancel_amended_witness :
    ((ButtonTracker.mk true false (some 50) (some 3000) false).reset_debounce
      = false) ∧
    (((ButtonTracker.mk true false (some 50) (some 3000) false).fire_tick 60).1.reset_timeout
      = none) :=
  ⟨rfl,
   (buttonTracker_reset_cancel_amended
     (ButtonTracker.mk true false (some 50) (some 3000) false)
     ButtonSide.Left true 60 rfl).2.1 (Or.inl ⟨rfl, rfl⟩)⟩

/-- C5: a duplicate raw level is a complete no-op on the tracker state; every
genuine level change stores the level and replaces the armed tick timer with a
fresh one 25 ms from now; raw updates alone issue no commands and the single
tick that fires once the lane stabilizes issues at most one command; and from
the initial state a single press stabilizing at `(left = true, right = false)`
issues exactly one `startLane(Left)` and zero `startLane(Right)`. -/
theorem buttonTracker_debounce (bt : ButtonTracker) (side : ButtonSide)
    (lvl : Bool) (now t0 t1 : Nat)
    (hdup : (match side with
             | ButtonSide.Left => bt.left_state
             | ButtonSide.Right => bt.right_state) = lvl)
    (hfire : t0 + 25 ≤ t1) :
    bt.update side lvl now = bt ∧
    (∀ (bt2 : ButtonTracker) (lvl2 : Bool) (now2 : Nat),
      (match side with
       | ButtonSide.Left => bt2.left_state
       | ButtonSide.Right => bt2.right_state) ≠ lvl2 →
      (bt2.update side lvl2 now2).tick_timeout = some (now2 + 25)) ∧
    (∀ (bt3 : ButtonTracker) (evs : List BtEvent),
      (∀ e ∈ evs, ∃ sd l n, e = BtEvent.rawLevel sd l n) →
      (bt3.run evs).2 = [] ∧
        ∀ n2, (((bt3.run evs).1.fire_tick n2).2).length ≤ 1) ∧
    (ButtonTracker.new.validRun
        [BtEvent.rawLevel ButtonSide.Left true t0, BtEvent.tickFire t1]
      = true ∧
     (ButtonTracker.new.run
        [BtEvent.rawLevel ButtonSide.Left true t0, BtEvent.tickFire t1]).2
      = [TimerCommand.startLane ButtonSide.Left]) := by
  refine ⟨?_, ?_, ?_, ?_, ?_⟩
  · cases side <;> simp_all [ButtonTracker.update]
  · intro bt2 lvl2 now2 hne
    cases side <;> simp_all [ButtonTracker.update]
  · intro bt3 evs hraw
    exact ⟨ButtonTracker.run_raw_only_no_cmds evs bt3 hraw,
      fun n2 => ButtonTracker.fire_tick_cmds_length _ n2⟩
  · simp [ButtonTracker.new, ButtonTracker.validRun, ButtonTracker.validEvent,
      ButtonTracker.run, ButtonTracker.step, ButtonTracker.update,
      ButtonTracker.fire_tick, hfire]
  · simp [ButtonTracker.new, ButtonTracker.run, ButtonTracker.step,
      ButtonTracker.update, ButtonTracker.fire_tick]

/-- Witness for C5 at a concrete tracker state (duplicate left-press ignored)
and the concrete schedule t0 = 0, t1 = 25. -/
theorem buttonTracker_debounce_witness :
    ((ButtonTracker.mk true false (some 5) none false).update
        ButtonSide.Left true 9
      = ButtonTracker.mk true false (some 5) none false) ∧
    ((ButtonTracker.new.run
        [BtEvent.rawLevel ButtonSide.Left true 0, BtEvent.tickFire 25]).2
      = [TimerCommand.startLane ButtonSide.Left]) :=
  ⟨(buttonTracker_debounce (ButtonTracker.mk true false (some 5) none false)
      ButtonSide.Left true 9 0 25 rfl (by decide)).1,
   (buttonTracker_debounce (ButtonTracker.mk true false (some 5) none false)
      ButtonSide.Left true 9 0 25 rfl (by decide)).2.2.2.2⟩
